import Mathlib

/-!
# aps-mobile: marker synchronisation of `App.js`

A shallow embedding of the logic of `src/App.js`: the permission gate
(`hasPermissionIOS`, `hasLocationPermission`), the startup effect of `App`
(sign-in, permission check, position fetch, feed subscription), the feed
handler that rebuilds the marker list, and the two gesture handlers
(`handleMapPress`, `handleDeleteMarker`).

Conventions of the embedding.

* A JavaScript object is the finite map of its own properties, a function
  from property names to optional values. Object spread is pointwise
  override, member access of a missing property gives `undefined`.
* Numbers are only stored and copied by this program, never computed with;
  they are represented by the rational value of their decimal literal.
* Collaborators (Firebase, Geolocation, PermissionsAndroid, Alert, Toast)
  are not executed. Every call the program makes to one of them is appended
  to a log (`App.calls`), and what a collaborator answers is read from an
  environment record (`Env`).
* An `async` function runs synchronously up to its first `await`; what
  follows runs later, after the caller has continued. The startup effect is
  therefore split in the part before the first `await` and its continuation.
-/

namespace ApsMobile

/-! ## Values and objects -/

/-- A JavaScript value stored in a property. Nested objects (maps, arrays,
timestamps) are never inspected by the program and are kept by reference. -/
inductive Value where
  | undefined
  | null
  | bool (b : Bool)
  | number (q : ℚ)
  | string (s : String)
  | ref (address : Nat)
  deriving DecidableEq

/-- A JavaScript object: its own properties. -/
abbrev Obj := String → Option Value

/-- The empty object literal. -/
def Obj.empty : Obj := fun _ => none

/-- Property definition `key: v` on `o`; a later definition of the same key wins. -/
def Obj.set (o : Obj) (key : String) (v : Value) : Obj :=
  fun k => if k = key then some v else o k

/-- An object literal with the listed properties, written left to right. -/
def Obj.ofList (props : List (String × Value)) : Obj :=
  props.foldl (fun o kv => o.set kv.1 kv.2) Obj.empty

/-- Object spread of `src` into `target`: every own property of `src`
is copied and overrides the property of the same name. -/
def Obj.spread (target src : Obj) : Obj :=
  fun k => match src k with
    | some v => some v
    | none => target k

/-- Member access `o.key`: `undefined` when the property is absent. -/
def Obj.get (o : Obj) (key : String) : Value :=
  (o key).getD Value.undefined

/-! ## Static data -/

/-- The category options, `PICKER_DATA` of the source. -/
def PICKER_DATA : List Obj :=
  [ Obj.ofList [("value", .string "Área alagada"), ("markerColor", .string "orange")],
    Obj.ofList [("value", .string "Buraco"), ("markerColor", .string "red")],
    Obj.ofList [("value", .string "Chuvas fortes"), ("markerColor", .string "blue")],
    Obj.ofList [("value", .string "Deslizamento"), ("markerColor", .string "green")] ]

/-- The map viewport held in the `region` state. -/
structure Region where
  latitude : ℚ
  longitude : ℚ
  latitudeDelta : ℚ
  longitudeDelta : ℚ
  deriving DecidableEq

/-- The initial value of the `region` state. -/
def initialRegion : Region :=
  { latitude := 37.78825, longitude := -122.4324,
    latitudeDelta := 0.015, longitudeDelta := 0.0121 }

/-! ## Collaborators -/

/-- The statuses of `PermissionsAndroid.RESULTS`. -/
inductive PermissionStatus where
  | GRANTED
  | DENIED
  | NEVER_ASK_AGAIN
  deriving DecidableEq

/-- The fields of `Platform` the program reads. `Version` is only read
after `OS` was found to be `android`, where it is the API level. -/
structure Platform where
  OS : String
  Version : Nat
  deriving DecidableEq

/-- A call made by the program to one of its collaborators. -/
inductive Call where
  /-- `auth().signInAnonymously()` -/
  | signInAnonymously
  /-- `Geolocation.requestAuthorization(...)` -/
  | requestAuthorization (level : String)
  /-- `PermissionsAndroid.check(ACCESS_FINE_LOCATION)` -/
  | permissionCheck
  /-- `PermissionsAndroid.request(ACCESS_FINE_LOCATION)` -/
  | permissionRequest
  /-- `Alert.alert(title, ...)` -/
  | alert (title : String)
  /-- `ToastAndroid.show(message, LONG)` -/
  | toast (message : String)
  /-- `Geolocation.getCurrentPosition(success, error, options)` -/
  | getCurrentPosition
  /-- `firestore().collection(name).onSnapshot(handler)` -/
  | onSnapshot (collection : String)
  /-- the function returned by `onSnapshot`, called -/
  | unsubscribe (collection : String)
  /-- `firestore().collection(name).add(document)` -/
  | add (collection : String) (document : Obj)
  /-- `firestore().collection(name).doc(key).delete()` -/
  | delete (collection : String) (key : Value)
  /-- `console.log(tag, ...)` -/
  | log (tag : String)

/-- What the collaborators answer during one run. -/
structure Env where
  platform : Platform
  /-- whether the promise of `signInAnonymously` fulfils (`true`) or rejects -/
  signIn : Bool
  /-- the status `Geolocation.requestAuthorization` resolves to -/
  authorization : String
  /-- what `PermissionsAndroid.check` resolves to -/
  check : Bool
  /-- what `PermissionsAndroid.request` resolves to -/
  request : PermissionStatus

/-! ## The permission gate -/

/-- Source `hasPermissionIOS`: the capability and the calls made. -/
def hasPermissionIOS (env : Env) : Bool × List Call :=
  let status := env.authorization
  let calls := [Call.requestAuthorization "whenInUse"]
  if status = "granted" then (true, calls)
  else
    let calls := if status = "denied" then
      calls ++ [Call.alert "Location permission denied"] else calls
    let calls := if status = "disabled" then
      calls ++ [Call.alert "Turn on Location Services to allow to determine your location."]
      else calls
    (false, calls)

/-- Source `hasLocationPermission`: the capability and the calls made. -/
def hasLocationPermission (env : Env) : Bool × List Call :=
  if env.platform.OS = "ios" then hasPermissionIOS env
  else if env.platform.OS = "android" ∧ env.platform.Version < 23 then (true, [])
  else
    let hasPermission := env.check
    let calls := [Call.permissionCheck]
    if hasPermission then (true, calls)
    else
      let status := env.request
      let calls := calls ++ [Call.permissionRequest]
      if status = PermissionStatus.GRANTED then (true, calls)
      else if status = PermissionStatus.DENIED then
        (false, calls ++ [Call.toast "Location permission denied by user."])
      else if status = PermissionStatus.NEVER_ASK_AGAIN then
        (false, calls ++ [Call.toast "Location permission revoked by user."])
      else (false, calls)

/-! ## Component state -/

/-- A document of a query snapshot: its backend key `id` and the object
returned by `data()`. -/
structure Doc where
  id : String
  data : Obj

/-- A query snapshot: `docs`, in the backend order. -/
structure QuerySnapshot where
  docs : List Doc

/-- The function `onSnapshot` returns; calling it releases the listener. -/
structure Unsubscribe where
  collection : String
  deriving DecidableEq

/-- The state of the mounted `App`: its three `useState` cells, whether the
snapshot listener registered through `onSnapshot` is live, and the log of
collaborator calls. -/
structure App where
  isLoading : Bool
  markers : List Obj
  region : Region
  listening : Bool
  calls : List Call

/-- The component before its startup effect ran. -/
def App.initial : App :=
  { isLoading := true, markers := [], region := initialRegion,
    listening := false, calls := [] }

/-- Append calls to the log. -/
def App.call (a : App) (cs : List Call) : App :=
  { a with calls := a.calls ++ cs }

/-! ## The feed handler -/

/-- The record built for one document: `{id: doc.id, ...doc.data()}`. -/
def toMarker (doc : Doc) : Obj :=
  Obj.spread (Obj.ofList [("id", .string doc.id)]) doc.data

/-- The handler passed to `onSnapshot`: `setMarkers(data); setLoading(false)`
with `data = querySnapshot.docs.map(...)`. -/
def onSnapshotHandler (querySnapshot : QuerySnapshot) (a : App) : App :=
  let data := querySnapshot.docs.map toMarker
  { a with markers := data, isLoading := false }

/-- The backend delivers a snapshot: the handler runs when the listener is live. -/
def deliver (querySnapshot : QuerySnapshot) (a : App) : App :=
  if a.listening then onSnapshotHandler querySnapshot a else a

/-- A sequence of snapshots handed to the handler one after the other. -/
def handleAll (snapshots : List QuerySnapshot) (a : App) : App :=
  snapshots.foldl (fun st s => onSnapshotHandler s st) a

/-! ## The startup effect -/

/-- The variables of the effect closure: `let subscriber`. -/
structure Closure where
  subscriber : Option Unsubscribe

/-- The truth value of `if (hasLocationPermission)`: the operand is the
function itself, and a function object converts to `true`. -/
def hasLocationPermissionTruthy : Bool := true

/-- The async block up to its first `await`: `auth().signInAnonymously()` is
called and the block suspends on the returned promise. -/
def startupHead (a : App) (c : Closure) : App × Closure :=
  (a.call [Call.signInAnonymously], c)

/-- The async block after its first `await`, run until it ends. A rejected
sign-in goes to the `catch`, which logs. Otherwise `hasLocationPermission()`
is awaited (its value is dropped), the position fetch is started under
`if (hasLocationPermission)`, and the listener is registered and assigned to
`subscriber`. -/
def startupTail (env : Env) (a : App) (c : Closure) : App × Closure :=
  if env.signIn then
    let a := a.call (hasLocationPermission env).2
    let a := if hasLocationPermissionTruthy then a.call [Call.getCurrentPosition] else a
    let a := { a.call [Call.onSnapshot "events"] with listening := true }
    (a, { c with subscriber := some ⟨"events"⟩ })
  else
    (a.call [Call.log "didMount"], c)

/-- The outcome of running the effect callback: the state, the closure and
the cleanup value handed back. -/
structure Mounted where
  app : App
  closure : Closure
  cleanup : Option Unsubscribe

/-- The effect callback itself: declare `subscriber`, start the async block
(which runs to its first `await`), then `return subscriber`. -/
def startupEffect (a : App) : Mounted :=
  let c : Closure := { subscriber := none }
  let r := startupHead a c
  { app := r.1, closure := r.2, cleanup := r.2.subscriber }

/-- The suspended async block resumes once the sign-in promise settles. -/
def Mounted.resume (env : Env) (m : Mounted) : Mounted :=
  let r := startupTail env m.app m.closure
  { m with app := r.1, closure := r.2 }

/-- Mount: the effect callback, then the settled async block. -/
def mount (env : Env) : Mounted :=
  (startupEffect App.initial).resume env

/-- Teardown: the cleanup value is called if it is a function. -/
def teardown (m : Mounted) : App :=
  match m.cleanup with
  | some u => { m.app.call [Call.unsubscribe u.collection] with listening := false }
  | none => m.app

/-- The success callback of `getCurrentPosition`:
`setRegion({...region, latitude, longitude})`, where `region` is the value
captured by the effect closure, the initial one. -/
def onPosition (latitude longitude : ℚ) (a : App) : App :=
  { a with region := { initialRegion with latitude := latitude, longitude := longitude } }

/-- The error callback of `getCurrentPosition`: a log line. -/
def onPositionError (a : App) : App :=
  a.call [Call.log "position"]

/-! ## The category dialog and the gesture handlers -/

/-- How the user leaves the category dialog: a press on the option of index
`k` of the picker, or a dismissal (backdrop press, back button). -/
inductive DialogAction where
  | press (k : Fin 4)
  | dismiss

/-- Source `Modal.handleAccept`: the pending promise resolves to `item`. -/
def handleAccept (item : Obj) : Option Obj := some item

/-- Source `Modal.handleRequestClose`: the pending promise resolves to
`undefined`. -/
def handleRequestClose : Option Obj := none

/-- The value `await modalRef.current.show()` yields: the picker calls
`onChange(i)` with the pressed element `i` of `PICKER_DATA`. -/
def showResult : DialogAction → Option Obj
  | .press k => handleAccept (PICKER_DATA.getD k.val Obj.empty)
  | .dismiss => handleRequestClose

/-- The truth value of `if (response)`: `undefined` is false, an object is true. -/
def truthy : Option Obj → Bool
  | none => false
  | some _ => true

/-- The object `nativeEvent.coordinate` of a long-press. -/
def coordinate (latitude longitude : ℚ) : Obj :=
  Obj.ofList [("latitude", .number latitude), ("longitude", .number longitude)]

/-- Source `handleMapPress`, for a long-press at the coordinate and the way
the dialog it opens is left. -/
def handleMapPress (latitude longitude : ℚ) (action : DialogAction) (a : App) : App :=
  let response := showResult action
  if truthy response then
    a.call [Call.add "events"
      (Obj.spread (Obj.spread Obj.empty (response.getD Obj.empty))
        (coordinate latitude longitude))]
  else a

/-- The two buttons of the delete confirmation. -/
inductive AlertButton where
  | Cancelar
  | Excluir

/-- Source `handleDeleteMarker`, for the record `i` and the button pressed. -/
def handleDeleteMarker (i : Obj) (button : AlertButton) (a : App) : App :=
  let a := a.call [Call.alert "Aviso"]
  match button with
  | .Cancelar => a
  | .Excluir => a.call [Call.delete "events" (i.get "id")]

/-! ## Observations on the call log -/

/-- Whether a call is a create request on the collection. -/
def Call.isAdd (collection : String) : Call → Bool
  | .add c _ => c = collection
  | _ => false

/-- Whether a call is a delete request on the collection. -/
def Call.isDelete (collection : String) : Call → Bool
  | .delete c _ => c = collection
  | _ => false

/-- Whether a call is a delete request on the collection for the key. -/
def Call.isDeleteOf (collection : String) (key : Value) : Call → Bool
  | .delete c k => c = collection ∧ k = key
  | _ => false

/-- Whether a call is a permission prompt of the prompt-based variant. -/
def Call.isPermissionRequest : Call → Bool
  | .permissionRequest => true
  | _ => false

/-- Whether a call is an authorization request. -/
def Call.isRequestAuthorization : Call → Bool
  | .requestAuthorization _ => true
  | _ => false

/-- Whether a call starts the position fetch. -/
def Call.isGetCurrentPosition : Call → Bool
  | .getCurrentPosition => true
  | _ => false

/-- Whether a call registers the snapshot listener. -/
def Call.isOnSnapshot : Call → Bool
  | .onSnapshot _ => true
  | _ => false

/-- Whether a call starts the permission gate. -/
def Call.isPermissionStart : Call → Bool
  | .requestAuthorization _ => true
  | .permissionCheck => true
  | .permissionRequest => true
  | _ => false

/-- Whether a call releases the snapshot listener. -/
def Call.isUnsubscribe : Call → Bool
  | .unsubscribe _ => true
  | _ => false

/-! ## Example inputs -/

/-- Two documents with distinct keys that both store a field named `id`. -/
def foreignSnapshot : QuerySnapshot :=
  { docs := [ { id := "k1", data := Obj.ofList [("id", .string "x")] },
              { id := "k2", data := Obj.ofList [("id", .string "x")] } ] }

/-- A document that stores a field named `id`. -/
def foreignDoc : Doc :=
  { id := "k1", data := Obj.ofList [("id", .string "x"), ("value", .string "Buraco")] }

/-- A document as the application writes it. -/
def ownDoc : Doc :=
  { id := "k1",
    data := Obj.ofList [("value", .string "Buraco"), ("markerColor", .string "red"),
      ("latitude", .number 1), ("longitude", .number 2)] }

/-- A snapshot of two documents as the application writes them. -/
def ownSnapshot : QuerySnapshot :=
  { docs := [ ownDoc, { ownDoc with id := "k2" } ] }

/-- The capability the prompt-based variant gives for a request status. -/
def capabilityOfStatus : PermissionStatus → Bool
  | .GRANTED => true
  | .DENIED => false
  | .NEVER_ASK_AGAIN => false

/-- A sequence of snapshots sent by the backend, each reaching the handler
only while the listener is live. -/
def deliverAll (snapshots : List QuerySnapshot) (a : App) : App :=
  snapshots.foldl (fun st s => deliver s st) a

/-- Android API level 33, sign-in succeeds, the permission is not yet
granted and the user denies the prompt. -/
def deniedEnv : Env :=
  { platform := { OS := "android", Version := 33 }, signIn := true,
    authorization := "denied", check := false, request := .DENIED }

/-- Android API level 33, the permission is granted, sign-in succeeds. -/
def grantedEnv : Env :=
  { platform := { OS := "android", Version := 33 }, signIn := true,
    authorization := "granted", check := true, request := .GRANTED }

/-- Android API level 33, the permission is granted, sign-in is rejected. -/
def authFailEnv : Env :=
  { grantedEnv with signIn := false }

/-- An iOS device on which the location service is disabled. -/
def disabledEnv : Env :=
  { platform := { OS := "ios", Version := 0 }, signIn := true,
    authorization := "disabled", check := false, request := .DENIED }

/-! ## Objects -/

theorem toMarker_apply (doc : Doc) (k : String) :
    toMarker doc k =
      match doc.data k with
      | some v => some v
      | none => if k = "id" then some (.string doc.id) else none := by
  simp [toMarker, Obj.spread, Obj.ofList, Obj.set, Obj.empty]

theorem toMarker_id_of_not_stored (doc : Doc) (h : doc.data "id" = none) :
    (toMarker doc).get "id" = .string doc.id := by
  simp [Obj.get, toMarker_apply, h]

theorem toMarker_stored (doc : Doc) (k : String) (v : Value) (h : doc.data k = some v) :
    toMarker doc k = some v := by
  simp [toMarker_apply, h]

/-! ## The feed handler -/

theorem onSnapshotHandler_markers (s : QuerySnapshot) (a : App) :
    (onSnapshotHandler s a).markers = s.docs.map toMarker := rfl

theorem handleAll_append_last (earlier : List QuerySnapshot) (s : QuerySnapshot) (a : App) :
    handleAll (earlier ++ [s]) a = onSnapshotHandler s (handleAll earlier a) := by
  simp [handleAll, List.foldl_append]

/-- C2. After any sequence of snapshots handed to the feed handler, the
markers state is exactly the translation of the last one: one record per
document, in the order of its documents, whatever came before and whatever
the state was. -/
theorem C2_markers_are_translation_of_last_snapshot
    (earlier earlier2 : List QuerySnapshot) (Sk : QuerySnapshot) (a a2 : App) :
    (handleAll (earlier ++ [Sk]) a).markers = Sk.docs.map toMarker
    ∧ (handleAll (earlier ++ [Sk]) a).markers.length = Sk.docs.length
    ∧ (∀ r ∈ (handleAll (earlier ++ [Sk]) a).markers, ∃ d ∈ Sk.docs, r = toMarker d)
    ∧ (handleAll (earlier ++ [Sk]) a).markers = (handleAll (earlier2 ++ [Sk]) a2).markers := by
  have h : ∀ (e : List QuerySnapshot) (b : App),
      (handleAll (e ++ [Sk]) b).markers = Sk.docs.map toMarker := by
    intro e b
    rw [handleAll_append_last, onSnapshotHandler_markers]
  refine ⟨h earlier a, ?_, ?_, ?_⟩
  · rw [h earlier a, List.length_map]
  · intro r hr
    rw [h earlier a, List.mem_map] at hr
    obtain ⟨d, hd, rfl⟩ := hr
    exact ⟨d, hd, rfl⟩
  · rw [h earlier a, h earlier2 a2]

theorem markers_ids_of_not_stored (docs : List Doc) (h : ∀ d ∈ docs, d.data "id" = none) :
    (docs.map toMarker).map (fun r => r.get "id") = docs.map (fun d => Value.string d.id) := by
  rw [List.map_map]
  apply List.map_congr_left
  intro d hd
  exact toMarker_id_of_not_stored d (h d hd)

theorem string_injective : Function.Injective Value.string := by
  intro x y hxy
  cases hxy
  rfl

/-- C9, as the code has it. Handing the same snapshot to the feed handler
twice gives the same markers state as handing it once. The handler removes
no duplicates itself: the markers have pairwise distinct identities when the
documents of the snapshot have pairwise distinct keys and none of them stores
a field named id. -/
theorem C9_same_snapshot_twice_and_distinct_identities (S : QuerySnapshot) (a : App) :
    (onSnapshotHandler S (onSnapshotHandler S a)).markers = (onSnapshotHandler S a).markers
    ∧ ((S.docs.map Doc.id).Nodup → (∀ d ∈ S.docs, d.data "id" = none) →
        ((onSnapshotHandler S (onSnapshotHandler S a)).markers.map
          (fun r => r.get "id")).Nodup) := by
  refine ⟨rfl, ?_⟩
  intro hkeys hno
  rw [onSnapshotHandler_markers, markers_ids_of_not_stored S.docs hno]
  have h := List.Nodup.map string_injective hkeys
  rwa [List.map_map] at h

/-- C9, witness: a snapshot of two documents written by the application. -/
theorem C9_same_snapshot_twice_and_distinct_identities_witness :
    (ownSnapshot.docs.map Doc.id).Nodup
    ∧ (∀ d ∈ ownSnapshot.docs, d.data "id" = none)
    ∧ ((onSnapshotHandler ownSnapshot (onSnapshotHandler ownSnapshot App.initial)).markers.map
          (fun r => r.get "id")).Nodup := by
  have hkeys : (ownSnapshot.docs.map Doc.id).Nodup := by
    simp [ownSnapshot, ownDoc]
  have hno : ∀ d ∈ ownSnapshot.docs, d.data "id" = none := by
    intro d hd
    simp only [ownSnapshot, List.mem_cons, List.mem_singleton, List.not_mem_nil, or_false] at hd
    rcases hd with rfl | rfl <;>
      simp [ownDoc, Obj.ofList, Obj.set, Obj.empty]
  exact ⟨hkeys, hno,
    (C9_same_snapshot_twice_and_distinct_identities ownSnapshot App.initial).2 hkeys hno⟩

/-- C9, counterexample. Two documents with distinct keys that both store
a field id with the same value give two markers with the same identity. -/
theorem C9_duplicate_identities_counterexample :
    (foreignSnapshot.docs.map Doc.id).Nodup
    ∧ ¬ ((onSnapshotHandler foreignSnapshot
          (onSnapshotHandler foreignSnapshot App.initial)).markers.map
            (fun r => r.get "id")).Nodup := by
  constructor
  · simp [foreignSnapshot]
  · simp [onSnapshotHandler, foreignSnapshot, Obj.get, toMarker_apply, Obj.ofList, Obj.set,
      Obj.empty]

/-- C10, as the code has it. The record built for a document carries every
stored field of the document unchanged and adds no field but id; its id is
the key of the document when the document stores no field named id. -/
theorem C10_record_carries_fields_and_key (doc : Doc) :
    (∀ k v, doc.data k = some v → toMarker doc k = some v)
    ∧ (∀ k, k ≠ "id" → toMarker doc k = doc.data k)
    ∧ (doc.data "id" = none → (toMarker doc).get "id" = .string doc.id) := by
  refine ⟨fun k v h => toMarker_stored doc k v h, ?_, toMarker_id_of_not_stored doc⟩
  intro k hk
  rw [toMarker_apply]
  cases h : doc.data k <;> simp [hk]

/-- C10, witness: a document as the application writes it. -/
theorem C10_record_carries_fields_and_key_witness :
    ownDoc.data "value" = some (.string "Buraco")
    ∧ toMarker ownDoc "value" = some (.string "Buraco")
    ∧ toMarker ownDoc "markerColor" = ownDoc.data "markerColor"
    ∧ ownDoc.data "id" = none
    ∧ (toMarker ownDoc).get "id" = .string "k1" := by
  have hv : ownDoc.data "value" = some (.string "Buraco") := by
    simp [ownDoc, Obj.ofList, Obj.set, Obj.empty]
  have hid : ownDoc.data "id" = none := by
    simp [ownDoc, Obj.ofList, Obj.set, Obj.empty]
  exact ⟨hv, (C10_record_carries_fields_and_key ownDoc).1 "value" _ hv,
    (C10_record_carries_fields_and_key ownDoc).2.1 "markerColor" (by decide), hid,
    (C10_record_carries_fields_and_key ownDoc).2.2 hid⟩

/-- C10, counterexample. For a document of key k1 that stores a field id
of value x, the id of the record is x and not the key. -/
theorem C10_stored_id_counterexample :
    foreignDoc.id = "k1"
    ∧ (toMarker foreignDoc).get "id" = .string "x"
    ∧ (toMarker foreignDoc).get "id" ≠ .string foreignDoc.id := by
  refine ⟨rfl, ?_, ?_⟩ <;>
    simp [Obj.get, toMarker_apply, foreignDoc, Obj.ofList, Obj.set, Obj.empty]

/-! ## Create -/

theorem createDocument_eq (k : Fin 4) (latitude longitude : ℚ) :
    Obj.spread (Obj.spread Obj.empty (PICKER_DATA.getD k.val Obj.empty))
        (coordinate latitude longitude)
      = Obj.ofList [("value", (PICKER_DATA.getD k.val Obj.empty).get "value"),
          ("markerColor", (PICKER_DATA.getD k.val Obj.empty).get "markerColor"),
          ("latitude", .number latitude), ("longitude", .number longitude)] := by
  funext f
  fin_cases k <;>
    simp [PICKER_DATA, coordinate, Obj.spread, Obj.ofList, Obj.set, Obj.empty, Obj.get] <;>
    split_ifs <;> simp_all

/-- C7. For every option of PICKER_DATA pressed in the dialog and every
long-press coordinate, handleMapPress submits one document to the events
collection whose fields are exactly value and markerColor of the option and
latitude and longitude of the press; the option has both fields. A snapshot
that contains this document under a key gives, at its place, one record with
that key as id and the same four fields. -/
theorem C7_created_document_fields (k : Fin 4) (latitude longitude : ℚ) (a st : App)
    (key : String) (before after : List Doc) :
    ∃ c document : Obj,
      PICKER_DATA.get? k.val = some c
      ∧ c "value" ≠ none ∧ c "markerColor" ≠ none
      ∧ (handleMapPress latitude longitude (.press k) a).calls
          = a.calls ++ [Call.add "events" document]
      ∧ document = Obj.ofList [("value", c.get "value"), ("markerColor", c.get "markerColor"),
          ("latitude", .number latitude), ("longitude", .number longitude)]
      ∧ (onSnapshotHandler { docs := before ++ { id := key, data := document } :: after } st).markers
          = before.map toMarker ++ toMarker { id := key, data := document } :: after.map toMarker
      ∧ toMarker { id := key, data := document }
          = Obj.ofList [("id", .string key), ("value", c.get "value"),
              ("markerColor", c.get "markerColor"),
              ("latitude", .number latitude), ("longitude", .number longitude)] := by
  refine ⟨PICKER_DATA.getD k.val Obj.empty, _, ?_, ?_, ?_, ?_,
    createDocument_eq k latitude longitude, ?_, ?_⟩
  · fin_cases k <;> simp [PICKER_DATA]
  · fin_cases k <;> simp [PICKER_DATA, Obj.ofList, Obj.set, Obj.empty]
  · fin_cases k <;> simp [PICKER_DATA, Obj.ofList, Obj.set, Obj.empty]
  · simp [handleMapPress, showResult, handleAccept, truthy, App.call]
  · simp [onSnapshotHandler]
  · rw [createDocument_eq]
    funext f
    simp only [toMarker_apply]
    simp [Obj.ofList, Obj.set, Obj.empty]
    split_ifs <;> simp_all

/-- C5. A long-press whose dialog is dismissed leaves the call log as it
was, so it issues no create request; and for every way the dialog is left,
handleMapPress issues a create request on the events collection (exactly
one) if and only if an option was pressed. -/
theorem C5_create_iff_option_chosen (latitude longitude : ℚ) (action : DialogAction) (a : App) :
    showResult .dismiss = handleRequestClose
    ∧ handleMapPress latitude longitude .dismiss a = a
    ∧ (handleMapPress latitude longitude .dismiss a).calls.countP (Call.isAdd "events")
        = a.calls.countP (Call.isAdd "events")
    ∧ ((handleMapPress latitude longitude action a).calls.countP (Call.isAdd "events")
        = a.calls.countP (Call.isAdd "events") + 1 ↔ ∃ k, action = .press k)
    ∧ ((handleMapPress latitude longitude action a).calls.countP (Call.isAdd "events")
        = a.calls.countP (Call.isAdd "events") ↔ action = .dismiss) := by
  refine ⟨rfl, rfl, rfl, ?_, ?_⟩
  · cases action with
    | press k =>
      simp [handleMapPress, showResult, handleAccept, truthy, App.call, Call.isAdd]
    | dismiss =>
      simp [handleMapPress, showResult, handleRequestClose, truthy]
  · cases action with
    | press k =>
      simp [handleMapPress, showResult, handleAccept, truthy, App.call, Call.isAdd]
    | dismiss =>
      simp [handleMapPress, showResult, handleRequestClose, truthy]

/-! ## Delete -/

/-- C6. For every record and every state: pressing the confirm button of
the alert opened by handleDeleteMarker issues, after the alert, one delete
request on the events collection, keyed by the id of the record, and no other
request; pressing the cancel button issues no request at all. Neither changes
the markers state. -/
theorem C6_delete_on_confirm_only (i : Obj) (a : App) :
    (handleDeleteMarker i .Excluir a).calls
      = a.calls ++ [Call.alert "Aviso", Call.delete "events" (i.get "id")]
    ∧ (handleDeleteMarker i .Excluir a).calls.countP (Call.isDelete "events")
        = a.calls.countP (Call.isDelete "events") + 1
    ∧ (handleDeleteMarker i .Excluir a).calls.countP (Call.isDeleteOf "events" (i.get "id"))
        = a.calls.countP (Call.isDeleteOf "events" (i.get "id")) + 1
    ∧ (handleDeleteMarker i .Excluir a).markers = a.markers
    ∧ (handleDeleteMarker i .Cancelar a).calls = a.calls ++ [Call.alert "Aviso"]
    ∧ (handleDeleteMarker i .Cancelar a).calls.countP (Call.isDelete "events")
        = a.calls.countP (Call.isDelete "events")
    ∧ (handleDeleteMarker i .Cancelar a).calls.countP (Call.isAdd "events")
        = a.calls.countP (Call.isAdd "events")
    ∧ (handleDeleteMarker i .Cancelar a).markers = a.markers := by
  simp [handleDeleteMarker, App.call, Call.isDelete, Call.isDeleteOf, Call.isAdd]

/-! ## The permission gate -/

/-- On Android below API level 23 the gate answers true and calls nothing. -/
theorem hasLocationPermission_legacy (env : Env) (hos : env.platform.OS = "android")
    (hv : env.platform.Version < 23) : hasLocationPermission env = (true, []) := by
  simp [hasLocationPermission, hos, hv]

/-- C8. Authorization-based variant (OS is ios): one authorization request,
no prompt of the other variant, and the capability is true for the status
granted and false for every other status, among them denied, restricted and
disabled. Prompt-based variant (any other OS, Android below API level 23
apart): when the check finds the permission granted the capability is true
and no request is issued; otherwise exactly one request is issued and the
capability is true for GRANTED, false for DENIED and for NEVER_ASK_AGAIN. -/
theorem C8_permission_mapping (env : Env) :
    (env.platform.OS = "ios" →
      (hasLocationPermission env).2.countP Call.isRequestAuthorization = 1
      ∧ (hasLocationPermission env).2.countP Call.isPermissionRequest = 0
      ∧ (hasLocationPermission env).1 = decide (env.authorization = "granted")
      ∧ (env.authorization ∈ ["denied", "restricted", "disabled"] →
          (hasLocationPermission env).1 = false))
    ∧ (env.platform.OS ≠ "ios" →
        ¬ (env.platform.OS = "android" ∧ env.platform.Version < 23) →
      (hasLocationPermission env).2.countP Call.isRequestAuthorization = 0
      ∧ (hasLocationPermission env).2.countP Call.isPermissionRequest
          = (if env.check then 0 else 1)
      ∧ (hasLocationPermission env).1 = (env.check || capabilityOfStatus env.request)) := by
  constructor
  · intro hos
    have h1 : (hasLocationPermission env).1 = decide (env.authorization = "granted") := by
      by_cases hg : env.authorization = "granted" <;>
        simp [hasLocationPermission, hasPermissionIOS, hos, hg]
    refine ⟨?_, ?_, h1, ?_⟩
    · by_cases hg : env.authorization = "granted" <;>
      by_cases hd : env.authorization = "denied" <;>
      by_cases hx : env.authorization = "disabled" <;>
        simp [hasLocationPermission, hasPermissionIOS, hos, hg, hd, hx,
          Call.isRequestAuthorization]
    · by_cases hg : env.authorization = "granted" <;>
      by_cases hd : env.authorization = "denied" <;>
      by_cases hx : env.authorization = "disabled" <;>
        simp [hasLocationPermission, hasPermissionIOS, hos, hg, hd, hx,
          Call.isPermissionRequest]
    · intro hm
      rw [h1]
      simp only [List.mem_cons, List.mem_singleton, List.not_mem_nil, or_false] at hm
      rcases hm with h | h | h <;> simp [h]
  · intro hos hlegacy
    have hl : ¬ (env.platform.OS = "android" ∧ env.platform.Version < 23) := hlegacy
    cases hc : env.check <;> cases hr : env.request <;>
      simp [hasLocationPermission, hos, hl, hc, hr, capabilityOfStatus,
        Call.isRequestAuthorization, Call.isPermissionRequest]

/-- C8, witness: an iOS device with the location service disabled, and an
Android device of API level 33 on which the prompt is denied. -/
theorem C8_permission_mapping_witness :
    (disabledEnv.platform.OS = "ios"
      ∧ (hasLocationPermission disabledEnv).2.countP Call.isRequestAuthorization = 1
      ∧ (hasLocationPermission disabledEnv).1 = false)
    ∧ (deniedEnv.platform.OS ≠ "ios"
      ∧ ¬ (deniedEnv.platform.OS = "android" ∧ deniedEnv.platform.Version < 23)
      ∧ (hasLocationPermission deniedEnv).2.countP Call.isPermissionRequest = 1
      ∧ (hasLocationPermission deniedEnv).1 = false) := by
  have hios : disabledEnv.platform.OS = "ios" := rfl
  have hos : deniedEnv.platform.OS ≠ "ios" := by decide
  have hl : ¬ (deniedEnv.platform.OS = "android" ∧ deniedEnv.platform.Version < 23) := by
    decide
  have h1 := (C8_permission_mapping disabledEnv).1 hios
  have h2 := (C8_permission_mapping deniedEnv).2 hos hl
  exact ⟨⟨hios, h1.1, h1.2.2.2 (by simp [disabledEnv])⟩, hos, hl, h2.2.1, h2.2.2⟩

/-! ## The startup effect -/

theorem permission_calls_countP (env : Env) :
    (hasLocationPermission env).2.countP Call.isUnsubscribe = 0
    ∧ (hasLocationPermission env).2.countP Call.isGetCurrentPosition = 0
    ∧ (hasLocationPermission env).2.countP Call.isOnSnapshot = 0 := by
  simp only [hasLocationPermission, hasPermissionIOS]
  split_ifs <;>
    simp [Call.isUnsubscribe, Call.isGetCurrentPosition, Call.isOnSnapshot]

/-- Whenever the sign-in succeeds the position fetch is started, whatever
the permission gate answered. -/
theorem getCurrentPosition_whenever_signed_in (env : Env) (h : env.signIn = true) :
    (mount env).app.calls.countP Call.isGetCurrentPosition = 1 := by
  have hp := (permission_calls_countP env).2.1
  simp [mount, Mounted.resume, startupTail, startupEffect, startupHead, App.call, App.initial,
    h, hasLocationPermissionTruthy, List.countP_append, hp, Call.isGetCurrentPosition]

/-- The success callback of the position fetch replaces the centre of the
region and keeps the initial deltas. -/
theorem onPosition_region (latitude longitude : ℚ) (a : App) :
    (onPosition latitude longitude a).region
      = { latitude := latitude, longitude := longitude,
          latitudeDelta := initialRegion.latitudeDelta,
          longitudeDelta := initialRegion.longitudeDelta } := rfl

/-- C1, evaluation of the code. On Android API level 33 with the prompt
denied, the permission gate resolves to false and the startup effect still
calls getCurrentPosition once. -/
theorem C1_position_fetch_despite_denied_permission :
    deniedEnv.signIn = true
    ∧ (hasLocationPermission deniedEnv).1 = false
    ∧ (mount deniedEnv).app.calls.countP Call.isGetCurrentPosition = 1
    ∧ (mount deniedEnv).app.region = initialRegion := by
  refine ⟨rfl, ?_, getCurrentPosition_whenever_signed_in deniedEnv rfl, rfl⟩
  simp [hasLocationPermission, deniedEnv]

/-- C3, evaluation of the code. For every run, the cleanup value the
startup effect returns is undefined, since subscriber is only assigned in
the continuation of the async block; teardown then changes nothing and calls
no unsubscribe function. When the sign-in succeeded the listener is
registered, stays live after teardown, and a snapshot sent after teardown
still runs the handler. -/
theorem C3_cleanup_is_undefined (env : Env) (S : QuerySnapshot) :
    (mount env).cleanup = none
    ∧ teardown (mount env) = (mount env).app
    ∧ (teardown (mount env)).calls.countP Call.isUnsubscribe = 0
    ∧ (mount { env with signIn := true }).closure.subscriber = some { collection := "events" }
    ∧ (teardown (mount { env with signIn := true })).listening = true
    ∧ (deliver S (teardown (mount { env with signIn := true }))).markers
        = S.docs.map toMarker := by
  have hc : (mount env).cleanup = none := rfl
  have ht : teardown (mount env) = (mount env).app := by
    simp [teardown, hc]
  refine ⟨hc, ht, ?_, ?_, ?_, ?_⟩
  · rw [ht]
    have hp := (permission_calls_countP env).1
    cases hs : env.signIn <;>
      simp [mount, Mounted.resume, startupTail, startupEffect, startupHead, App.call,
        App.initial, hs, hasLocationPermissionTruthy, List.countP_append, hp,
        Call.isUnsubscribe]
  · simp [mount, Mounted.resume, startupTail, startupEffect, startupHead]
  · simp [teardown, mount, Mounted.resume, startupTail, startupEffect, startupHead,
      hasLocationPermissionTruthy, App.call]
  · simp [deliver, onSnapshotHandler, teardown, mount, Mounted.resume, startupTail,
      startupEffect, startupHead, hasLocationPermissionTruthy, App.call]

theorem deliverAll_not_listening (snapshots : List QuerySnapshot) (a : App)
    (h : a.listening = false) : deliverAll snapshots a = a := by
  induction snapshots with
  | nil => rfl
  | cons s rest ih =>
    have hd : deliver s a = a := by simp [deliver, h]
    simpa [deliverAll, hd] using ih

/-- C4, as the code has it. For every run in which the sign-in fails, the
startup block ends in its catch: the calls made are the sign-in and one log
line, so neither the permission gate nor the position fetch nor the feed
subscription is started, no listener is live, and whatever snapshots the
backend sends, the loading flag stays set and the markers stay empty. -/
theorem C4_failed_sign_in_ends_startup (env : Env) (snapshots : List QuerySnapshot)
    (h : env.signIn = false) :
    (mount env).app.calls = [Call.signInAnonymously, Call.log "didMount"]
    ∧ (mount env).app.calls.countP Call.isPermissionStart = 0
    ∧ (mount env).app.calls.countP Call.isGetCurrentPosition = 0
    ∧ (mount env).app.calls.countP Call.isOnSnapshot = 0
    ∧ (mount env).app.listening = false
    ∧ (deliverAll snapshots (mount env).app).isLoading = true
    ∧ (deliverAll snapshots (mount env).app).markers = [] := by
  have hcalls : (mount env).app.calls = [Call.signInAnonymously, Call.log "didMount"] := by
    simp [mount, Mounted.resume, startupTail, startupEffect, startupHead, App.call,
      App.initial, h]
  have hl : (mount env).app.listening = false := by
    simp [mount, Mounted.resume, startupTail, startupEffect, startupHead, App.call,
      App.initial, h]
  have hst : deliverAll snapshots (mount env).app = (mount env).app :=
    deliverAll_not_listening snapshots _ hl
  refine ⟨hcalls, ?_, ?_, ?_, hl, ?_, ?_⟩
  · simp [hcalls, Call.isPermissionStart]
  · simp [hcalls, Call.isGetCurrentPosition]
  · simp [hcalls, Call.isOnSnapshot]
  · rw [hst]
    simp [mount, Mounted.resume, startupTail, startupEffect, startupHead, App.call,
      App.initial, h]
  · rw [hst]
    simp [mount, Mounted.resume, startupTail, startupEffect, startupHead, App.call,
      App.initial, h]

/-- C4, witness: a run in which the sign-in is rejected. -/
theorem C4_failed_sign_in_ends_startup_witness :
    authFailEnv.signIn = false
    ∧ (mount authFailEnv).app.calls.countP Call.isOnSnapshot = 0
    ∧ (deliverAll [ownSnapshot] (mount authFailEnv).app).isLoading = true :=
  ⟨rfl, (C4_failed_sign_in_ends_startup authFailEnv [ownSnapshot] rfl).2.2.2.1,
    (C4_failed_sign_in_ends_startup authFailEnv [ownSnapshot] rfl).2.2.2.2.2.1⟩

/-- C4, counterexample. With the sign-in rejected (permission granted,
Android API level 33) the permission gate is never called, no listener is
registered, and a snapshot sent by the backend leaves the loading flag set. -/
theorem C4_sign_in_failure_counterexample :
    authFailEnv.signIn = false
    ∧ (mount authFailEnv).app.calls.countP Call.isPermissionStart = 0
    ∧ (mount authFailEnv).app.calls.countP Call.isOnSnapshot = 0
    ∧ (deliver ownSnapshot (mount authFailEnv).app).isLoading = true := by
  decide

/-- When the sign-in succeeds the permission gate runs, the listener is
registered once and the first snapshot clears the loading flag. -/
theorem startup_after_sign_in (env : Env) (S : QuerySnapshot) (h : env.signIn = true) :
    (mount env).app.calls.countP Call.isOnSnapshot = 1
    ∧ (mount env).app.listening = true
    ∧ (deliver S (mount env).app).isLoading = false := by
  have hp := (permission_calls_countP env).2.2
  simp [mount, Mounted.resume, startupTail, startupEffect, startupHead, App.call, App.initial,
    h, hasLocationPermissionTruthy, List.countP_append, hp, Call.isOnSnapshot, deliver,
    onSnapshotHandler]

end ApsMobile
